import Mathlib

/-!
Verification of the notification core of Bambu-Notify (`bambu-notify.py`).

The development shallowly embeds the state-dependent, pure parts of the
program: `StateManager` (priming, transition events, progress reporting),
`CameraManager` (stream lifecycle), and the webhook delivery loop of
`Notifier.send`.  Python's mutable objects become explicit state values;
each method becomes a function from the old state (plus its inputs) to the
new state and its result.
-/

namespace BambuNotify

/-- The slice of the `notifications` section of the configuration that
`StateManager` reads.  Each field is `none` when the key is absent from
the YAML file, mirroring Python's `dict.get`. -/
structure NotifConfig where
  report_start : Option Bool := none
  report_finish : Option Bool := none
  report_failure : Option Bool := none
  report_pause : Option Bool := none
  report_resume : Option Bool := none
  report_first_layer : Option Bool := none
  report_second_layer : Option Bool := none
  report_percentages : Option (List Nat) := none
deriving DecidableEq

/-- A configuration in which every `report_*` key is absent. -/
def defaultCfg : NotifConfig := {}

/-- The fields of `bambu_connect.PrinterStatus` that the notification state
machine reads (`gcode_state`, `layer_num`, `mc_percent`). -/
structure PrinterStatus where
  gcode_state : String
  layer_num : Nat
  mc_percent : Nat
deriving DecidableEq

/-- The mutable state of `StateManager`: the stored configuration plus the
fields assigned in `__init__` / `_reset_print_state`. -/
structure StateManager where
  config : NotifConfig
  is_primed : Bool
  last_gcode_state : String
  reported_percentages : Finset Nat
  reported_first_layer : Bool
  reported_second_layer : Bool
deriving DecidableEq

/-- `StateManager._reset_print_state`: clears the per-job tracking fields,
leaving `last_gcode_state` (and `is_primed`) untouched. -/
def StateManager.reset_print_state (s : StateManager) : StateManager :=
  { s with
    reported_percentages := ∅
    reported_first_layer := false
    reported_second_layer := false }

/-- `StateManager.__init__`: stores the configuration, marks the manager
unprimed, sets `last_gcode_state` to `"IDLE"` and runs
`_reset_print_state`. -/
def StateManager.init (cfg : NotifConfig) : StateManager :=
  StateManager.reset_print_state
    { config := cfg
      is_primed := false
      last_gcode_state := "IDLE"
      reported_percentages := ∅
      reported_first_layer := false
      reported_second_layer := false }

/-- `StateManager.prime_state`: records the first observed `gcode_state`;
when the printer is already `RUNNING`, back-fills the layer flags from
`layer_num` and marks every percentage from 0 to `mc_percent` inclusive as
reported (the loop `for p in range(status.mc_percent + 1)`); finally sets
`is_primed`. -/
def StateManager.prime_state (s : StateManager) (st : PrinterStatus) : StateManager :=
  let s1 := { s with last_gcode_state := st.gcode_state }
  let s2 :=
    if st.gcode_state = "RUNNING" then
      let sa := if st.layer_num > 1 then { s1 with reported_first_layer := true } else s1
      let sb := if st.layer_num > 2 then { sa with reported_second_layer := true } else sa
      { sb with reported_percentages := sb.reported_percentages ∪ Finset.range (st.mc_percent + 1) }
    else s1
  { s2 with is_primed := true }

/-- The `if/elif` ladder of `process_status` that chooses the event of a
state transition, with each branch gated by its configuration switch
(`config.get(key, True)`, i.e. default enabled). -/
def transitionEvent (cfg : NotifConfig) (last new : String) : Option String :=
  if new = "RUNNING" ∧ last ≠ "PAUSE" then
    if cfg.report_start.getD true then some "print_start" else none
  else if new = "FINISH" then
    if cfg.report_finish.getD true then some "print_finish" else none
  else if new = "FAILED" then
    if cfg.report_failure.getD true then some "print_failure" else none
  else if new = "PAUSE" then
    if cfg.report_pause.getD true then some "print_pause" else none
  else if last = "PAUSE" ∧ new = "RUNNING" then
    if cfg.report_resume.getD true then some "print_resume" else none
  else none

/-- The percentage loop of `process_status`: scan the configured thresholds
in list order; the first `p` with `p not in reported_percentages` and
`mc_percent >= p` marks every percentage `0..p` as reported (the loop
`for i in range(p + 1)`) and returns `progress_report`. -/
def percLoop (s : StateManager) (mc : Nat) : List Nat → StateManager × Option String
  | [] => (s, none)
  | p :: ps =>
    if p ∉ s.reported_percentages ∧ p ≤ mc then
      ({ s with reported_percentages := s.reported_percentages ∪ Finset.range (p + 1) },
        some "progress_report")
    else percLoop s mc ps

/-- The progress-based checks of `process_status`: nothing unless the
status is `RUNNING`; then first layer (`config.get('report_first_layer')`,
absent key falsy), second layer, then the percentage thresholds. -/
def progressChecks (s : StateManager) (st : PrinterStatus) : StateManager × Option String :=
  if st.gcode_state ≠ "RUNNING" then (s, none)
  else if s.config.report_first_layer.getD false = true ∧
      s.reported_first_layer = false ∧ st.layer_num > 1 then
    ({ s with reported_first_layer := true }, some "progress_report")
  else if s.config.report_second_layer.getD false = true ∧
      s.reported_second_layer = false ∧ st.layer_num > 2 then
    ({ s with reported_second_layer := true }, some "progress_report")
  else percLoop s st.mc_percent (s.config.report_percentages.getD [])

/-- `StateManager.process_status`: prime on the first call; on a changed
`gcode_state` run the transition ladder (resetting the per-job state on a
new-print `RUNNING` transition), update `last_gcode_state`, and return the
event if one fired (`if event: return event`); otherwise fall through to
the progress-based checks. -/
def StateManager.process_status (s : StateManager) (st : PrinterStatus) :
    StateManager × Option String :=
  if s.is_primed = false then (s.prime_state st, none)
  else if st.gcode_state = s.last_gcode_state then progressChecks s st
  else
    let s0 :=
      if st.gcode_state = "RUNNING" ∧ s.last_gcode_state ≠ "PAUSE" then
        s.reset_print_state
      else s
    let s1 := { s0 with last_gcode_state := st.gcode_state }
    match transitionEvent s.config s.last_gcode_state st.gcode_state with
    | some e => (s1, some e)
    | none => progressChecks s1 st

/-- A primed `StateManager` with the given tracking fields, used to state
properties of post-priming calls. -/
def primedState (cfg : NotifConfig) (last : String) (rp : Finset Nat)
    (rf rs : Bool) : StateManager :=
  { config := cfg
    is_primed := true
    last_gcode_state := last
    reported_percentages := rp
    reported_first_layer := rf
    reported_second_layer := rs }

/-- Fold `process_status` over a list of statuses, keeping the final state. -/
def runStatuses (s : StateManager) : List PrinterStatus → StateManager
  | [] => s
  | st :: sts => runStatuses (s.process_status st).1 sts

/-- Fold `process_status` over a list of statuses, collecting each call's
returned event. -/
def runEvents (s : StateManager) : List PrinterStatus → List (Option String)
  | [] => []
  | st :: sts => (s.process_status st).2 :: runEvents (s.process_status st).1 sts

/-- A set of naturals that contains every value below each of its members,
the shape `reported_percentages` is claimed to keep. -/
def DownClosed (rp : Finset Nat) : Prop :=
  ∀ a b : Nat, a ≤ b → b ∈ rp → a ∈ rp

/-- The state of `CameraManager` visible to `start`/`stop`: the cached
frame bytes (`b""` is the empty list) and the `_is_active` flag. -/
structure CameraManager where
  last_frame : List Nat
  is_active : Bool
deriving DecidableEq

/-- `CameraManager.start`: returns without touching anything when the
stream is already active; otherwise calls `client.start_camera_stream` and
sets the active flag.  The returned `Bool` records whether the underlying
`start_camera_stream` call was made. -/
def CameraManager.start (c : CameraManager) : CameraManager × Bool :=
  if c.is_active then (c, false)
  else ({ c with is_active := true }, true)

/-- `CameraManager.stop`: returns without touching anything when the
stream is not active; otherwise calls `client.stop_camera_stream`, clears
the cached frame and drops the active flag.  The returned `Bool` records
whether the underlying `stop_camera_stream` call was made. -/
def CameraManager.stop (c : CameraManager) : CameraManager × Bool :=
  if c.is_active then
    ({ c with last_frame := [], is_active := false }, true)
  else (c, false)

/-- The outcome of one `requests.post` call: an HTTP response (status code
and body), or a network-level failure raising a `RequestException`. -/
inductive PostOutcome where
  | response (code : Nat) (body : String)
  | netError (msg : String)
deriving DecidableEq

/-- Models `requests.Response.raise_for_status`, which raises `HTTPError`
exactly for client-error (400–499) and server-error (500–599) statuses. -/
def raise_for_status (code : Nat) : Bool :=
  decide (400 ≤ code) && decide (code < 600)

/-- What `Notifier.send` logs for one webhook: either the success line
with the response status, or the caught-and-logged exception (which for an
`HTTPError` still references the offending response). -/
inductive Delivery where
  | success (url : String) (code : Nat)
  | failure (url : String) (outcome : PostOutcome)
deriving DecidableEq

/-- The webhook a delivery record belongs to. -/
def Delivery.url : Delivery → String
  | .success u _ => u
  | .failure u _ => u

/-- The body of one iteration of the webhook loop of `Notifier.send`: the
POST outcome goes through `raise_for_status`; any `RequestException`
(HTTP error or network error) is caught and logged as a failure, and
control falls to the next webhook. -/
def deliverOne (url : String) (o : PostOutcome) : Delivery :=
  match o with
  | .response code body =>
    if raise_for_status code then .failure url (.response code body)
    else .success url code
  | .netError msg => .failure url (.netError msg)

/-- The `for i, url in enumerate(self.webhooks)` loop of `Notifier.send`:
one POST attempt per webhook, in list order, each classified by
`deliverOne` independently of the others' outcomes.  The function
`post i` gives the outcome of the single POST made for webhook `i`. -/
def sendLoop (post : Nat → PostOutcome) : Nat → List String → List Delivery
  | _, [] => []
  | i, url :: rest => deliverOne url (post i) :: sendLoop post (i + 1) rest

/-- `Notifier.send` for one event: returns immediately when no webhooks
are configured or when template rendering failed (`renderOk = false`);
otherwise runs the webhook loop and returns its per-webhook log. -/
def Notifier.send (webhooks : List String) (renderOk : Bool)
    (post : Nat → PostOutcome) : List Delivery :=
  if webhooks = [] then []
  else if renderOk then sendLoop post 0 webhooks
  else []

/-- Configuration with percentage thresholds `[25, 50, 75]` and no other
`report_*` key. -/
def cfgThresholds : NotifConfig := { report_percentages := some [25, 50, 75] }

/-- Configuration with `report_start` explicitly off and
`report_first_layer` explicitly on. -/
def cfgStartOffFirstOn : NotifConfig :=
  { report_start := some false, report_first_layer := some true }

/-- Configuration whose percentage thresholds are listed in descending
order `[75, 25]`. -/
def cfgUnsorted : NotifConfig := { report_percentages := some [75, 25] }

/-! ## Helper lemmas -/

/-- A delivery record names the webhook it was attempted against. -/
theorem deliverOne_url (u : String) (o : PostOutcome) :
    (deliverOne u o).url = u := by
  cases o with
  | response code body =>
    by_cases h : raise_for_status code = true <;> simp [deliverOne, Delivery.url, h]
  | netError msg => rfl

/-- The webhook loop is the enumeration of the webhook list, each entry
classified independently from its own POST outcome. -/
theorem sendLoop_eq_enumFrom (post : Nat → PostOutcome) (ws : List String) :
    ∀ i, sendLoop post i ws =
      (List.enumFrom i ws).map fun x => deliverOne x.2 (post x.1) := by
  induction ws with
  | nil => intro i; rfl
  | cons w ws ih =>
    intro i
    simp [sendLoop, List.enumFrom, ih (i + 1)]

/-! ## Claim theorems -/

/-- C4: with thresholds `[25, 50, 75]`, a primed `RUNNING` manager whose
layer conditions are disabled processes `mc_percent` readings
`10, 26, 40, 80` into exactly two events, `progress_report` at 26 and at
80, with no event at 10 and 40. -/
theorem threshold_sequence_events :
    runEvents (primedState cfgThresholds "RUNNING" ∅ false false)
      [⟨"RUNNING", 0, 10⟩, ⟨"RUNNING", 0, 26⟩, ⟨"RUNNING", 0, 40⟩, ⟨"RUNNING", 0, 80⟩] =
      [none, some "progress_report", none, some "progress_report"] := by decide

/-- C8 (counterexample input): an HTTP 201 response — neither 200 nor
204 — is nevertheless recorded as a delivery success by the webhook loop,
because `raise_for_status` only raises for 4xx/5xx. -/
theorem send_status_201_success_ce :
    Notifier.send ["hook"] true (fun _ => PostOutcome.response 201 "created") =
      [Delivery.success "hook" 201] ∧ (201 : Nat) ≠ 200 ∧ (201 : Nat) ≠ 204 := by
  decide

/-- C8 (amended): a webhook POST counts as a delivery success exactly when
its response status is outside 400–599; a 4xx/5xx status is a delivery
failure, caught and logged with the offending response. -/
theorem send_failure_iff_4xx_5xx (url : String) (code : Nat) (body : String) :
    Notifier.send [url] true (fun _ => PostOutcome.response code body) =
      [if 400 ≤ code ∧ code < 600 then
        Delivery.failure url (PostOutcome.response code body)
       else Delivery.success url code] := by
  by_cases h : 400 ≤ code ∧ code < 600 <;>
    simp [Notifier.send, sendLoop, deliverOne, raise_for_status,
      Bool.and_eq_true, decide_eq_true_eq, h]

/-- C9: for one event whose rendering succeeded, `Notifier.send` attempts
one POST per configured webhook, in configured order, and each webhook's
recorded outcome depends only on its own POST result — failing webhooks
(HTTP error or network error) never remove later webhooks from the
attempt list, and no outcome escapes the loop. -/
theorem send_attempts_every_webhook (webhooks : List String)
    (post : Nat → PostOutcome) :
    Notifier.send webhooks true post =
      (webhooks.enum.map fun x => deliverOne x.2 (post x.1)) ∧
    (Notifier.send webhooks true post).map Delivery.url = webhooks := by
  have hmain : Notifier.send webhooks true post =
      (webhooks.enum.map fun x => deliverOne x.2 (post x.1)) := by
    cases webhooks with
    | nil => rfl
    | cons w ws =>
      simp only [Notifier.send, if_true]
      rw [if_neg (by simp), sendLoop_eq_enumFrom]
      rfl
  refine ⟨hmain, ?_⟩
  rw [hmain, List.map_map]
  have : (Delivery.url ∘ fun x : Nat × String => deliverOne x.2 (post x.1)) =
      fun x : Nat × String => x.2 := by
    funext x
    exact deliverOne_url x.2 (post x.1)
  rw [this]
  exact List.enum_map_snd webhooks

/-- C10: `CameraManager.start` on an active stream and
`CameraManager.stop` on an inactive stream change nothing and make no
underlying client call, and a stop that actually stops clears the cached
frame and the active flag. -/
theorem camera_start_stop_idempotent (c : CameraManager) :
    (c.is_active = true → c.start = (c, false)) ∧
    (c.is_active = false → c.stop = (c, false)) ∧
    (c.is_active = true →
      c.stop.1.last_frame = [] ∧ c.stop.1.is_active = false ∧ c.stop.2 = true) := by
  refine ⟨fun h => ?_, fun h => ?_, fun h => ?_⟩ <;>
    simp [CameraManager.start, CameraManager.stop, h]

/-- Witness for C10 at a concrete active manager and a concrete inactive
one. -/
theorem camera_start_stop_idempotent_witness :
    CameraManager.start ⟨[7], true⟩ = (⟨[7], true⟩, false) ∧
    (CameraManager.stop ⟨[7], true⟩).1.is_active = false ∧
    CameraManager.stop ⟨[], false⟩ = (⟨[], false⟩, false) :=
  ⟨(camera_start_stop_idempotent ⟨[7], true⟩).1 rfl,
    ((camera_start_stop_idempotent ⟨[7], true⟩).2.2 rfl).2.1,
    (camera_start_stop_idempotent ⟨[], false⟩).2.1 rfl⟩

/-- C1 (counterexample input): a primed manager with `report_start` off
and `report_first_layer` on, on the transition `IDLE → RUNNING` with
`layer_num = 2`, does not stop after the gated-off transition: the call
emits `progress_report` and sets `reported_first_layer`. -/
theorem gated_transition_falls_through_ce :
    ((primedState cfgStartOffFirstOn "IDLE" ∅ false false).process_status
        ⟨"RUNNING", 2, 0⟩).2 = some "progress_report" ∧
    ((primedState cfgStartOffFirstOn "IDLE" ∅ false false).process_status
        ⟨"RUNNING", 2, 0⟩).1.reported_first_layer = true := by decide

/-- C2 (counterexample input): with every `report_*` key absent, a primed
`RUNNING` manager seeing `layer_num = 2` (first layer done, not yet
reported) emits nothing — the first-layer switch defaults to disabled,
not enabled. -/
theorem default_config_first_layer_ce :
    ((primedState defaultCfg "RUNNING" ∅ false false).process_status
        ⟨"RUNNING", 2, 0⟩).2 = none ∧
    ((primedState defaultCfg "RUNNING" ∅ false false).process_status
        ⟨"RUNNING", 2, 0⟩).2 ≠ some "progress_report" := by decide

/-- C5 (counterexample input): with thresholds listed as `[75, 25]` and
`mc_percent = 80`, the listed-first threshold 75 fires (marking all of
`0..75` reported, 75 included), rather than the numerically smallest
qualifying threshold 25 with only `0..25` marked and 75 left for a later
call: an identical follow-up status emits nothing. -/
theorem threshold_list_order_ce :
    ((primedState cfgUnsorted "RUNNING" ∅ false false).process_status
        ⟨"RUNNING", 1, 80⟩).1.reported_percentages = Finset.range 76 ∧
    (75 : Nat) ∈ ((primedState cfgUnsorted "RUNNING" ∅ false false).process_status
        ⟨"RUNNING", 1, 80⟩).1.reported_percentages ∧
    (((primedState cfgUnsorted "RUNNING" ∅ false false).process_status
        ⟨"RUNNING", 1, 80⟩).1.process_status ⟨"RUNNING", 1, 80⟩).2 = none := by decide

/-- C3: the first-ever call to `process_status` (the priming call) returns
no event for any input status, marks the manager primed, and records the
status's `gcode_state`; when that first status is `RUNNING`, afterwards
`reported_first_layer` holds iff `layer_num > 1`, `reported_second_layer`
holds iff `layer_num > 2`, and `reported_percentages` is exactly
`{0, …, mc_percent}`. -/
theorem first_call_primes (cfg : NotifConfig) (st : PrinterStatus) :
    ((StateManager.init cfg).process_status st).2 = none ∧
    ((StateManager.init cfg).process_status st).1.is_primed = true ∧
    ((StateManager.init cfg).process_status st).1.last_gcode_state = st.gcode_state ∧
    (st.gcode_state = "RUNNING" →
      (((StateManager.init cfg).process_status st).1.reported_first_layer = true ↔
        1 < st.layer_num) ∧
      (((StateManager.init cfg).process_status st).1.reported_second_layer = true ↔
        2 < st.layer_num) ∧
      ((StateManager.init cfg).process_status st).1.reported_percentages =
        Finset.range (st.mc_percent + 1)) := by
  unfold StateManager.process_status StateManager.prime_state StateManager.init
    StateManager.reset_print_state
  by_cases hr : st.gcode_state = "RUNNING" <;>
    by_cases h1 : 1 < st.layer_num <;>
    by_cases h2 : 2 < st.layer_num <;>
    simp [hr, h1, h2]

/-- Witness for C3: priming on a `RUNNING` status with `layer_num = 3` and
`mc_percent = 2` fills `reported_percentages` with `{0, 1, 2}` and marks
the first layer reported. -/
theorem first_call_primes_witness :
    ((StateManager.init defaultCfg).process_status ⟨"RUNNING", 3, 2⟩).1.reported_percentages =
      Finset.range 3 ∧
    ((StateManager.init defaultCfg).process_status
        ⟨"RUNNING", 3, 2⟩).1.reported_first_layer = true :=
  ⟨((first_call_primes defaultCfg ⟨"RUNNING", 3, 2⟩).2.2.2 rfl).2.2,
    ((first_call_primes defaultCfg ⟨"RUNNING", 3, 2⟩).2.2.2 rfl).1.mpr (by decide)⟩

/-- C1 (amended): on a primed call whose `gcode_state` differs from
`last_gcode_state` and whose transition branch actually fires an event
(its switch on), the outcome is decided by the transition alone: the call
returns that event, and the state change is exactly the
`last_gcode_state` update plus the per-job reset on a new-print `RUNNING`
transition — no progress-based check runs. -/
theorem transition_event_decides_call (s : StateManager) (st : PrinterStatus) (e : String)
    (hp : s.is_primed = true)
    (hne : st.gcode_state ≠ s.last_gcode_state)
    (he : transitionEvent s.config s.last_gcode_state st.gcode_state = some e) :
    s.process_status st =
      ({ (if st.gcode_state = "RUNNING" ∧ s.last_gcode_state ≠ "PAUSE" then
            s.reset_print_state else s) with
          last_gcode_state := st.gcode_state }, some e) := by
  unfold StateManager.process_status
  rw [if_neg (by simp [hp]), if_neg hne, he]

/-- Witness for C1 at the transition `IDLE → FINISH` with the default
configuration: the call returns `print_finish` and only updates
`last_gcode_state`. -/
theorem transition_event_decides_call_witness :
    (primedState defaultCfg "IDLE" ∅ false false).process_status ⟨"FINISH", 0, 0⟩ =
      (primedState defaultCfg "FINISH" ∅ false false, some "print_finish") :=
  (transition_event_decides_call (primedState defaultCfg "IDLE" ∅ false false)
      ⟨"FINISH", 0, 0⟩ "print_finish" rfl (by decide) (by decide)).trans (by decide)

/-- C2 (amended): with a configuration omitting every `report_*` key, the
five transition switches default to enabled — the corresponding
transitions still emit `print_start`, `print_finish`, `print_failure`,
`print_pause` and `print_resume` — while every progress-based switch
(first layer, second layer, and the percentage thresholds) defaults to
disabled, so a call without a transition never emits anything. -/
theorem default_config_event_gating (last : String) (st : PrinterStatus)
    (rp : Finset Nat) (rf rs : Bool) :
    (st.gcode_state = "RUNNING" → last ≠ "RUNNING" → last ≠ "PAUSE" →
      ((primedState defaultCfg last rp rf rs).process_status st).2 = some "print_start") ∧
    (st.gcode_state = "FINISH" → last ≠ "FINISH" →
      ((primedState defaultCfg last rp rf rs).process_status st).2 = some "print_finish") ∧
    (st.gcode_state = "FAILED" → last ≠ "FAILED" →
      ((primedState defaultCfg last rp rf rs).process_status st).2 = some "print_failure") ∧
    (st.gcode_state = "PAUSE" → last ≠ "PAUSE" →
      ((primedState defaultCfg last rp rf rs).process_status st).2 = some "print_pause") ∧
    (st.gcode_state = "RUNNING" → last = "PAUSE" →
      ((primedState defaultCfg last rp rf rs).process_status st).2 = some "print_resume") ∧
    (st.gcode_state = last →
      ((primedState defaultCfg last rp rf rs).process_status st).2 = none) := by
  refine ⟨fun h1 h2 h3 => ?_, fun h1 h2 => ?_, fun h1 h2 => ?_, fun h1 h2 => ?_,
    fun h1 h2 => ?_, fun h1 => ?_⟩
  · simp [StateManager.process_status, primedState, transitionEvent, defaultCfg,
      h1, h3, Ne.symm h2]
  · simp [StateManager.process_status, primedState, transitionEvent, defaultCfg,
      h1, Ne.symm h2]
  · simp [StateManager.process_status, primedState, transitionEvent, defaultCfg,
      h1, Ne.symm h2]
  · simp [StateManager.process_status, primedState, transitionEvent, defaultCfg,
      h1, Ne.symm h2]
  · subst h2
    simp [StateManager.process_status, primedState, transitionEvent, defaultCfg, h1]
  · by_cases hr : st.gcode_state = "RUNNING" <;>
      simp [StateManager.process_status, primedState, progressChecks, percLoop,
        defaultCfg, h1, hr]

/-- Witness for C2 at the transitions `IDLE → FINISH` and
`PAUSE → RUNNING` under the key-free configuration. -/
theorem default_config_event_gating_witness :
    ((primedState defaultCfg "IDLE" ∅ false false).process_status ⟨"FINISH", 0, 0⟩).2 =
      some "print_finish" ∧
    ((primedState defaultCfg "PAUSE" ∅ false false).process_status ⟨"RUNNING", 0, 0⟩).2 =
      some "print_resume" :=
  ⟨(default_config_event_gating "IDLE" ⟨"FINISH", 0, 0⟩ ∅ false false).2.1 rfl (by decide),
    (default_config_event_gating "PAUSE" ⟨"RUNNING", 0, 0⟩ ∅ false false).2.2.2.2.1 rfl rfl⟩

/-- The percentage loop passes over every listed threshold that is
already reported or above `mc_percent`. -/
theorem percLoop_append_skips (s : StateManager) (mc : Nat) (ps1 rest : List Nat)
    (hskip : ∀ q ∈ ps1, q ∈ s.reported_percentages ∨ mc < q) :
    percLoop s mc (ps1 ++ rest) = percLoop s mc rest := by
  induction ps1 with
  | nil => rfl
  | cons q qs ih =>
    have hq := hskip q (by simp)
    have hcond : ¬(q ∉ s.reported_percentages ∧ q ≤ mc) := by
      rintro ⟨hnot, hle⟩
      rcases hq with h | h
      · exact hnot h
      · omega
    simp only [List.cons_append, percLoop, if_neg hcond]
    exact ih fun r hr => hskip r (by simp [hr])

/-- C5 (amended): on a primed, transition-free `RUNNING` call whose
first- and second-layer conditions are off or already satisfied, the
configured thresholds are scanned in the order the configuration lists
them — not in ascending numeric order — and the first listed threshold
`p` with `mc_percent ≥ p` not yet reported fires `progress_report`,
adding every integer `≤ p` to `reported_percentages`. -/
theorem first_listed_threshold_fires (s : StateManager) (st : PrinterStatus)
    (p : Nat) (ps1 ps2 : List Nat)
    (hp : s.is_primed = true)
    (hrun : st.gcode_state = "RUNNING")
    (hlast : s.last_gcode_state = "RUNNING")
    (hfl : s.config.report_first_layer.getD false = false ∨
      s.reported_first_layer = true ∨ st.layer_num ≤ 1)
    (hsl : s.config.report_second_layer.getD false = false ∨
      s.reported_second_layer = true ∨ st.layer_num ≤ 2)
    (hlist : s.config.report_percentages.getD [] = ps1 ++ p :: ps2)
    (hskip : ∀ q ∈ ps1, q ∈ s.reported_percentages ∨ st.mc_percent < q)
    (hnew : p ∉ s.reported_percentages) (hle : p ≤ st.mc_percent) :
    s.process_status st =
      ({ s with reported_percentages := s.reported_percentages ∪ Finset.range (p + 1) },
        some "progress_report") := by
  have hstep : s.process_status st = progressChecks s st := by
    unfold StateManager.process_status
    rw [if_neg (by simp [hp]), if_pos (by rw [hrun, hlast])]
  rw [hstep]
  unfold progressChecks
  rw [if_neg (by simp [hrun]), if_neg ?hA, if_neg ?hB, hlist,
    percLoop_append_skips s st.mc_percent ps1 _ hskip]
  case hA =>
    rintro ⟨ha, hb, hc⟩
    rcases hfl with h | h | h
    · rw [ha] at h; exact Bool.true_eq_false.mp h
    · rw [h] at hb; exact Bool.true_eq_false.mp hb
    · omega
  case hB =>
    rintro ⟨ha, hb, hc⟩
    rcases hsl with h | h | h
    · rw [ha] at h; exact Bool.true_eq_false.mp h
    · rw [h] at hb; exact Bool.true_eq_false.mp hb
    · omega
  simp only [percLoop]
  rw [if_pos ⟨hnew, hle⟩]

/-- Witness for C5 with thresholds listed `[75, 25]` and `mc_percent = 30`:
75 is passed over (not reached), 25 fires and marks `{0, …, 25}`. -/
theorem first_listed_threshold_fires_witness :
    (primedState cfgUnsorted "RUNNING" ∅ false false).process_status ⟨"RUNNING", 0, 30⟩ =
      (primedState cfgUnsorted "RUNNING" (Finset.range 26) false false,
        some "progress_report") :=
  (first_listed_threshold_fires (primedState cfgUnsorted "RUNNING" ∅ false false)
      ⟨"RUNNING", 0, 30⟩ 25 [75] [] rfl rfl rfl (Or.inl rfl) (Or.inl rfl) rfl
      (by decide) (by decide) (by decide)).trans (by decide)

/-- The empty set is downward closed. -/
theorem downClosed_empty : DownClosed (∅ : Finset Nat) :=
  fun _ b _ hb => absurd hb (Finset.not_mem_empty b)

/-- Adjoining a full initial segment keeps a set downward closed. -/
theorem downClosed_union_range (rp : Finset Nat) (k : Nat) (h : DownClosed rp) :
    DownClosed (rp ∪ Finset.range k) := by
  intro a b hab hb
  rcases Finset.mem_union.1 hb with hb | hb
  · exact Finset.mem_union_left _ (h a b hab hb)
  · exact Finset.mem_union_right _
      (Finset.mem_range.2 (lt_of_le_of_lt hab (Finset.mem_range.1 hb)))

/-- The percentage loop keeps `reported_percentages` downward closed. -/
theorem downClosed_percLoop (s : StateManager) (mc : Nat) (ps : List Nat)
    (h : DownClosed s.reported_percentages) :
    DownClosed ((percLoop s mc ps).1.reported_percentages) := by
  induction ps with
  | nil => exact h
  | cons p ps ih =>
    by_cases hc : p ∉ s.reported_percentages ∧ p ≤ mc
    · simp only [percLoop, if_pos hc]
      exact downClosed_union_range _ _ h
    · simp only [percLoop, if_neg hc]
      exact ih

/-- The progress-based checks keep `reported_percentages` downward closed. -/
theorem downClosed_progressChecks (s : StateManager) (st : PrinterStatus)
    (h : DownClosed s.reported_percentages) :
    DownClosed ((progressChecks s st).1.reported_percentages) := by
  unfold progressChecks
  split
  · exact h
  · split
    · exact h
    · split
      · exact h
      · exact downClosed_percLoop _ _ _ h

/-- Priming only ever adds a full initial segment to
`reported_percentages`. -/
theorem prime_reported_percentages (s : StateManager) (st : PrinterStatus) :
    (s.prime_state st).reported_percentages =
      if st.gcode_state = "RUNNING" then
        s.reported_percentages ∪ Finset.range (st.mc_percent + 1)
      else s.reported_percentages := by
  unfold StateManager.prime_state
  split_ifs <;> rfl

/-- One `process_status` call keeps `reported_percentages` downward
closed. -/
theorem downClosed_process_status (s : StateManager) (st : PrinterStatus)
    (h : DownClosed s.reported_percentages) :
    DownClosed ((s.process_status st).1.reported_percentages) := by
  unfold StateManager.process_status
  by_cases hp : s.is_primed = false
  · rw [if_pos hp]
    show DownClosed (s.prime_state st).reported_percentages
    rw [prime_reported_percentages]
    split
    · exact downClosed_union_range _ _ h
    · exact h
  · rw [if_neg hp]
    by_cases heq : st.gcode_state = s.last_gcode_state
    · rw [if_pos heq]
      exact downClosed_progressChecks s st h
    · rw [if_neg heq]
      have h0 : DownClosed
          ((if st.gcode_state = "RUNNING" ∧ s.last_gcode_state ≠ "PAUSE" then
              s.reset_print_state else s).reported_percentages) := by
        split
        · exact downClosed_empty
        · exact h
      dsimp only
      cases transitionEvent s.config s.last_gcode_state st.gcode_state with
      | some e => exact h0
      | none => exact downClosed_progressChecks _ st h0

/-- Any run of `process_status` calls keeps `reported_percentages`
downward closed. -/
theorem downClosed_runStatuses (s : StateManager) (sts : List PrinterStatus)
    (h : DownClosed s.reported_percentages) :
    DownClosed ((runStatuses s sts).reported_percentages) := by
  induction sts generalizing s with
  | nil => exact h
  | cons st sts ih => exact ih _ (downClosed_process_status s st h)

/-- C6: in every state reachable from a freshly constructed
`StateManager` by any sequence of `process_status` calls,
`reported_percentages` is downward closed: whenever it contains `P` it
contains every natural `≤ P` — so after notifying a percentage, all lower
percentages are marked reported, and the shape survives priming, per-job
resets and later threshold firings. -/
theorem reported_percentages_downClosed (cfg : NotifConfig) (sts : List PrinterStatus) :
    DownClosed ((runStatuses (StateManager.init cfg) sts).reported_percentages) :=
  downClosed_runStatuses _ _ downClosed_empty

/-- Witness for C6: after priming on a `RUNNING` status at 5 %, the
percentage 2 is in the reported set because 5 is. -/
theorem reported_percentages_downClosed_witness :
    2 ∈ (runStatuses (StateManager.init defaultCfg)
        [⟨"RUNNING", 0, 5⟩]).reported_percentages :=
  reported_percentages_downClosed defaultCfg [⟨"RUNNING", 0, 5⟩] 2 5
    (by decide) (by decide)

end BambuNotify
